import Mathlib

/-!
Verification of the natural-language-to-SQL pipeline of the SQliteAgent
repository.  Python code is shallowly embedded: Python strings are
`List Char` (ASCII behaviour of `str.upper`/`str.lower`/`\w` is assumed, as
every string the pipeline manipulates is ASCII), Python `try/except` is the
`Except` monad, and the external boundaries (HTTP call, `json.loads`,
`json.dumps`, the SQLite engine behind `DatabaseModel`) are oracle fields of
an environment record.  Functions keep the names of the Python methods they
embed.
-/

set_option maxRecDepth 4000

namespace SQLiteAgent

/-- Python strings, embedded as character lists. -/
abbrev PyStr := List Char

/-- Literal helper: the character list of a Lean string literal. -/
def pys (s : String) : PyStr := s.data

/-- ASCII model of the character class `\w` (Python `re`, ASCII range). -/
def isWordChar (c : Char) : Bool := c.isAlphanum || c == '_'

/-- ASCII model of the character class `\s`. -/
def isSpaceChar (c : Char) : Bool :=
  c == ' ' || c == '\t' || c == '\n' || c == '\x0d' || c == '\x0b' || c == '\x0c'

/-- Python `str.upper()` (ASCII). -/
def pyUpper (s : PyStr) : PyStr := s.map Char.toUpper

/-- Python `str.lower()` (ASCII). -/
def pyLower (s : PyStr) : PyStr := s.map Char.toLower

/-- Python `str.strip()`: remove leading and trailing whitespace. -/
def pyStrip (s : PyStr) : PyStr :=
  ((s.dropWhile isSpaceChar).reverse.dropWhile isSpaceChar).reverse

/-- Python substring test `needle in hay`. -/
def pyContains (hay needle : PyStr) : Bool :=
  (List.range (hay.length + 1)).any fun i => needle.isPrefixOf (hay.drop i)

/-- Python `str.startswith`. -/
def pyStartsWith (s pre : PyStr) : Bool := pre.isPrefixOf s

/-- Python truthiness of an optional string (`None` and `""` are falsy). -/
def pyFalsy : Option PyStr → Bool
  | none => true
  | some s => s.isEmpty

/-- `RiskLevel` enumeration from `app/models/schemas.py`. -/
inductive RiskLevel where
  | low | medium | high
deriving DecidableEq, Repr

/-- `RiskLevel(value)` for a `str` value: succeeds exactly on the enum values,
otherwise Python raises `ValueError`. -/
def riskLevelOfString (s : PyStr) : Option RiskLevel :=
  if s = pys "low" then some .low
  else if s = pys "medium" then some .medium
  else if s = pys "high" then some .high
  else none

/-- `QueryType` enumeration from `app/models/schemas.py`. -/
inductive QueryType where
  | select | insert | update | delete | create | drop | describe | count
  | aggregate | unknown
deriving DecidableEq, Repr

/-- Result dictionary of `SQLiteManager.validate_query_safety`
(`app/services/sqlite_manager.py`). -/
structure BasicValidation where
  safe : Bool
  warning : Option PyStr
  requires_confirmation : Bool
deriving DecidableEq, Repr

namespace SQLiteManager

/-- The `dangerous_keywords` list of `SQLiteManager.validate_query_safety`. -/
def dangerous_keywords : List PyStr :=
  [pys "DROP", pys "DELETE", pys "TRUNCATE", pys "ALTER", pys "CREATE",
   pys "INSERT", pys "UPDATE"]

/-- `SQLiteManager.validate_query_safety` (`app/services/sqlite_manager.py`,
lines 244-265): upper-case and strip the query, flag the first dangerous
keyword found by substring containment. -/
def validate_query_safety (query : PyStr) : BasicValidation :=
  let query_upper := pyStrip (pyUpper query)
  match dangerous_keywords.find? (fun k => pyContains query_upper k) with
  | some k =>
      { safe := false
        warning := some (pys "Query contains potentially dangerous operation: " ++ k)
        requires_confirmation := true }
  | none =>
      { safe := true, warning := none, requires_confirmation := false }

end SQLiteManager

/-- One element of the `messages` list handed to the OpenRouter API
(a Python dict with `role` and `content` keys). -/
structure ChatMessage where
  role : PyStr
  content : PyStr
deriving DecidableEq, Repr

/-- `reply["choices"][i]["message"]` of an API reply. -/
structure ApiMessage where
  content : PyStr
deriving DecidableEq, Repr

/-- One element of `reply["choices"]`. -/
structure ApiChoice where
  message : ApiMessage
deriving DecidableEq, Repr

/-- Shape of a (mock or parsed-JSON) OpenRouter chat-completion reply.  A live
reply of a different JSON shape is modelled by the `Except.error` outcome of
the body-parsing oracle instead. -/
structure ApiReply where
  choices : List ApiChoice
deriving DecidableEq, Repr

/-- Convenience constructor: a reply with a single message content, mirroring
the literal mock dictionaries of `AIQueryProcessor._get_mock_response`. -/
def singleContentReply (content : PyStr) : ApiReply :=
  { choices := [{ message := { content := content } }] }

/-- The `json.dumps(...)` content of the canned schema-generation mock reply in
`AIQueryProcessor._get_mock_response` (`app/services/ai_query_processor.py`,
lines 84-114), rendered with `json.dumps` default separators. -/
def mockSchemaContent : PyStr :=
  pys "\x7b\"tables\": [\x7b\"name\": \"users\", \"create_sql\": \"CREATE TABLE users (id INTEGER PRIMARY KEY, name TEXT, email TEXT, created_at TEXT);\", \"sample_data\": [\"INSERT INTO users (name, email, created_at) VALUES (\x27John Doe\x27, \x27john@example.com\x27, \x272023-01-01\x27);\", \"INSERT INTO users (name, email, created_at) VALUES (\x27Jane Smith\x27, \x27jane@example.com\x27, \x272023-01-02\x27);\"]\x7d, \x7b\"name\": \"items\", \"create_sql\": \"CREATE TABLE items (id INTEGER PRIMARY KEY, name TEXT, description TEXT, user_id INTEGER, FOREIGN KEY (user_id) REFERENCES users(id));\", \"sample_data\": [\"INSERT INTO items (name, description, user_id) VALUES (\x27Item 1\x27, \x27Description 1\x27, 1);\", \"INSERT INTO items (name, description, user_id) VALUES (\x27Item 2\x27, \x27Description 2\x27, 2);\"]\x7d], \"indexes\": [\"CREATE INDEX idx_users_email ON users(email);\", \"CREATE INDEX idx_items_user_id ON items(user_id);\"], \"description\": \"A simple database with users and items tables.\"\x7d"

/-- The default apology content of `AIQueryProcessor._get_mock_response`. -/
def mockApologyContent : PyStr :=
  pys "I\x27m sorry, I couldn\x27t process your request due to API limitations. Please try again later."

/-- The first message of the list whose `role` is `"user"`, else `""`:
the `user_message` extraction loop of `AIQueryProcessor._get_mock_response`
(lines 76-80), which `break`s at the first user-role message. -/
def firstUserContent (messages : List ChatMessage) : PyStr :=
  match messages.find? (fun m => m.role == pys "user") with
  | some m => m.content
  | none => []

/-- `AIQueryProcessor._get_mock_response` (`app/services/ai_query_processor.py`,
lines 71-153): the deterministic mock reply used whenever the API cannot be
called.  Branches on substrings of the lower-cased first user message. -/
def get_mock_response (messages : List ChatMessage) : ApiReply :=
  let user_message := firstUserContent messages
  let u := pyLower user_message
  if pyContains u (pys "database schema") || pyContains u (pys "create a database") then
    singleContentReply mockSchemaContent
  else if pyContains u (pys "sql") || pyContains u (pys "query") then
    if pyContains u (pys "books") then
      singleContentReply (pys "SELECT * FROM books;")
    else if pyContains u (pys "users") then
      singleContentReply (pys "SELECT * FROM users LIMIT 10;")
    else
      singleContentReply (pys "SELECT * FROM table_name LIMIT 10;")
  else
    singleContentReply mockApologyContent

/-- Outcome of the `requests.post` call in `AIQueryProcessor._make_api_request`:
either the call raised, or it returned a status code together with the outcome
of `response.json()` (which itself may raise on a non-JSON body, or produce a
body that is not of the expected chat-completion shape — both modelled as the
`Except.error` case). -/
inductive RemoteOutcome where
  | raised (e : PyStr)
  | response (status : Nat) (body : Except PyStr ApiReply)

/-- The parsed-JSON safety analysis dictionary expected from the model by
`AIQueryProcessor.validate_query_safety`; every key may be absent. -/
structure AIAnalysis where
  safe : Option Bool
  risk_level : Option PyStr
  warnings : Option (List PyStr)
  recommendations : Option (List PyStr)
deriving DecidableEq, Repr

/-- A result row: an ordered column-name/value dictionary (cell values are
abstracted to strings; nothing in the pipeline inspects them). -/
abbrev Row := List (PyStr × PyStr)

/-- `ColumnInfo` from `app/models/schemas.py` (the `default_value` cell is
abstracted to a string, as only its presence is ever rendered). -/
structure SchemaColumnInfo where
  name : PyStr
  type : PyStr
  not_null : Bool
  default_value : Option PyStr
  primary_key : Bool
deriving DecidableEq, Repr

/-- `TableInfo` from `app/models/schemas.py`. -/
structure SchemaTableInfo where
  name : PyStr
  columns : List SchemaColumnInfo
  row_count : Nat
deriving DecidableEq, Repr

/-- The structured schema dictionary produced by
`DatabaseModel.get_database_schema`: its `tables` entry as an
insertion-ordered dictionary. -/
structure DBSchema where
  tables : List (PyStr × SchemaTableInfo)
deriving DecidableEq, Repr

/-- `QueryResult` from `app/models/schemas.py`: the execution result embedded
in the pipeline response. -/
structure QueryResult where
  success : Bool
  data : Option (List Row) := none
  columns : Option (List PyStr) := none
  row_count : Option Nat := none
  rows_affected : Option Int := none
  message : Option PyStr := none
  error : Option PyStr := none
  execution_time : Option ℚ := none
deriving DecidableEq, Repr

/-- Environment of one pipeline run: the configuration read from
`current_app.config`, plus oracles for every external boundary (the HTTP call,
the `json` library, and the `DatabaseModel`/SQLite engine, whose methods may
either return or raise). -/
structure Env where
  apiKey : Option PyStr
  defaultModel : Option PyStr
  remote : List ChatMessage → RemoteOutcome
  parseAnalysis : PyStr → Option AIAnalysis
  dumpsRows : List Row → PyStr
  dbInfoTruthy : Except PyStr Bool
  schemaResult : Except PyStr (Option DBSchema)
  execQuery : PyStr → Except PyStr QueryResult

/-- `str(e)` of the `UnboundLocalError` raised inside the `except` handler of
`_make_api_request` when `requests.post` itself raised: the handler's logging
line evaluates `getattr(response, "status_code", "N/A")` with the local
`response` never bound on that path, so the handler crashes before it can
return the mock.  Wording as in CPython 3.11+; no theorem relies on the exact
text. -/
def unboundLocalResponseError : PyStr :=
  pys "cannot access local variable \x27response\x27 where it is not associated with a value"

/-- `AIQueryProcessor._make_api_request` (`app/services/ai_query_processor.py`,
lines 14-69): resolve the model, fall back to the mock reply when the key or
model is unconfigured, the status is not 200, or the body cannot be read as a
chat-completion reply; return the parsed body otherwise.  When the POST
itself raises, however, the method does *not* degrade to the mock: `response`
is only bound by the `requests.post` call, so the `except` handler's logging
line (line 66) dereferences an unbound local and the resulting
`UnboundLocalError` propagates to the caller — modelled as the `Except.error`
outcome, independent of the original exception's text. -/
def make_api_request (env : Env) (messages : List ChatMessage)
    (modelArg : Option PyStr) : Except PyStr ApiReply :=
  let model := if pyFalsy modelArg then env.defaultModel else modelArg
  if pyFalsy env.apiKey then .ok (get_mock_response messages)
  else if pyFalsy model then .ok (get_mock_response messages)
  else
    match env.remote messages with
    | .raised _ => .error unboundLocalResponseError
    | .response status body =>
        if status ≠ 200 then .ok (get_mock_response messages)
        else
          match body with
          | .error _ => .ok (get_mock_response messages)
          | .ok reply => .ok reply

/-! ## Intent Parser (`app/services/natural_language_parser.py`)

The Python patterns are compiled with `re.IGNORECASE`, but `parse_query`
lower-cases and strips its input before every extraction helper runs, and all
pattern literals are lower-case, so matching is embedded case-sensitively over
the lower-cased text.  Each regex is hand-compiled to an executable matcher
with Python's leftmost/greedy/backtracking semantics; the compilation of each
pattern is documented at its matcher. -/

/-- `text[i:i+len]`. -/
def slice (text : PyStr) (i len : Nat) : PyStr := (text.drop i).take len

/-- The pattern `pat` matches literally at position `i`. -/
def matchesAt (text pat : PyStr) (i : Nat) : Bool := pat.isPrefixOf (text.drop i)

/-- `\b` holds just before position `i`, for a pattern whose next character is
a word character: the preceding character must be absent or a non-word. -/
def boundaryBefore (text : PyStr) (i : Nat) : Bool :=
  i == 0 || !(isWordChar (text.getD (i - 1) ' '))

/-- `\b` holds just after position `j - 1`, for a pattern whose last character
is a word character: the character at `j` must be absent or a non-word. -/
def nonWordAt (text : PyStr) (j : Nat) : Bool := !(isWordChar (text.getD j 'a'))

/-- Length of the maximal `\w*` run starting at `i`. -/
def wordRunLen (text : PyStr) (i : Nat) : Nat :=
  ((text.drop i).takeWhile isWordChar).length

/-- Length of the maximal `\s*` run starting at `i`. -/
def spaceRunLen (text : PyStr) (i : Nat) : Nat :=
  ((text.drop i).takeWhile isSpaceChar).length

/-- Length of the maximal `\d*` run starting at `i`. -/
def digitRunLen (text : PyStr) (i : Nat) : Nat :=
  ((text.drop i).takeWhile Char.isDigit).length

/-- Leftmost application of a positional matcher: `re.search`. -/
def search1 {α : Type} (f : Nat → Option α) (text : PyStr) : Option α :=
  (List.range (text.length + 1)).findSome? f

/-- `re.search(r"\b(w1|w2|...)\b", text) is not None` for alternatives that
start and end with word characters (spaces inside an alternative, as in
`"number of"`, are matched literally). -/
def searchWordAlt (alts : List PyStr) (text : PyStr) : Bool :=
  (List.range (text.length + 1)).any fun i =>
    boundaryBefore text i &&
      alts.any fun w => matchesAt text w i && nonWordAt text (i + w.length)

/-- `re.search(r"\b(all|every)\s+\w+", text) is not None`: an alternative at a
word boundary, at least one whitespace, then a word character (`\s+`
backtracking collapses to: the character after the maximal whitespace run
must be a word character). -/
def searchAllEvery (text : PyStr) : Bool :=
  (List.range (text.length + 1)).any fun i =>
    boundaryBefore text i &&
      [pys "all", pys "every"].any fun w =>
        matchesAt text w i &&
          (let j := i + w.length
           let m := spaceRunLen text j
           m != 0 && isWordChar (text.getD (j + m) ' '))

namespace NLParser

/-- `select_keywords` pattern 1 alternatives. -/
def select_keywords1 : List PyStr :=
  [pys "show", pys "display", pys "list", pys "get", pys "find", pys "select",
   pys "retrieve"]

/-- `select_keywords` pattern 2 alternatives. -/
def select_keywords2 : List PyStr := [pys "what", pys "which", pys "how many"]

/-- `count_keywords` pattern 1 alternatives. -/
def count_keywords1 : List PyStr :=
  [pys "count", pys "number of", pys "how many", pys "total"]

/-- `count_keywords` pattern 2 alternatives. -/
def count_keywords2 : List PyStr :=
  [pys "sum", pys "average", pys "avg", pys "max", pys "min"]

/-- `insert_keywords` pattern 1 alternatives. -/
def insert_keywords1 : List PyStr :=
  [pys "add", pys "insert", pys "create", pys "new"]

/-- `insert_keywords` pattern 2 alternatives. -/
def insert_keywords2 : List PyStr := [pys "record", pys "entry", pys "row"]

/-- `update_keywords` pattern 1 alternatives. -/
def update_keywords1 : List PyStr :=
  [pys "update", pys "modify", pys "change", pys "edit"]

/-- `update_keywords` pattern 2 alternatives. -/
def update_keywords2 : List PyStr := [pys "set", pys "to"]

/-- `delete_keywords` pattern alternatives. -/
def delete_keywords1 : List PyStr := [pys "delete", pys "remove", pys "drop"]

/-- `NaturalLanguageParser._determine_query_type` (lines 85-109): pattern
families are tried in the order count, select, insert, update, delete; the
first family with any match decides the type. -/
def determine_query_type (query : PyStr) : QueryType :=
  if searchWordAlt count_keywords1 query || searchWordAlt count_keywords2 query then
    .count
  else if searchWordAlt select_keywords1 query || searchWordAlt select_keywords2 query
      || searchAllEvery query then
    .select
  else if searchWordAlt insert_keywords1 query || searchWordAlt insert_keywords2 query then
    .insert
  else if searchWordAlt update_keywords1 query || searchWordAlt update_keywords2 query then
    .update
  else if searchWordAlt delete_keywords1 query then
    .delete
  else
    .unknown

/-- `group(1)` captures of `r"\b(k1|k2)\s+(\w+)\b"`-shaped patterns (table
indicator pattern 1 and column indicator pattern 1).  The captured group 1 is
always the indicator keyword itself; the Python loops discard exactly those,
so the non-overlapping `finditer` scan is embedded as an all-positions scan
(duplicates are discarded with the rest). -/
def keywordThenWordGroup1s (alts : List PyStr) (text : PyStr) : List PyStr :=
  (List.range (text.length + 1)).filterMap fun i =>
    if boundaryBefore text i then
      alts.find? fun w =>
        matchesAt text w i &&
          (let j := i + w.length
           let m := spaceRunLen text j
           m != 0 && wordRunLen text (j + m) != 0)
    else none

/-- `group(1)` captures of table indicator pattern 2,
`r"\b(in|on)\s+(\w+)\s+(table)?\b"`.  Backtracking over `(table)?` and the
final `\b` collapses to: after the second whitespace run either the literal
`table` bounded by a non-word, or a word character.  Group 1 is always `in` or
`on`, which the Python loop discards. -/
def tableIndicator2Group1s (text : PyStr) : List PyStr :=
  (List.range (text.length + 1)).filterMap fun i =>
    if boundaryBefore text i then
      [pys "in", pys "on"].find? fun w =>
        matchesAt text w i &&
          (let j := i + w.length
           let m := spaceRunLen text j
           let k := j + m
           let r := wordRunLen text k
           let m2 := spaceRunLen text (k + r)
           m != 0 && r != 0 && m2 != 0 &&
             ((matchesAt text (pys "table") (k + r + m2) && nonWordAt text (k + r + m2 + 5))
               || isWordChar (text.getD (k + r + m2) ' ')))
    else none

/-- `group(1)` captures of column indicator pattern 2,
`r"\b(\w+)\s+(column|field)\b"`: the maximal word run before the keyword
(shorter runs cannot be followed by `\s+`). -/
def wordThenKeywordGroup1s (alts : List PyStr) (text : PyStr) : List PyStr :=
  (List.range (text.length + 1)).filterMap fun i =>
    if boundaryBefore text i then
      let r := wordRunLen text i
      if r != 0 then
        let j := i + r
        let m := spaceRunLen text j
        if m != 0 &&
            alts.any (fun w => matchesAt text w (j + m) && nonWordAt text (j + m + w.length)) then
          some (slice text i r)
        else none
      else none
    else none

/-- Greedy extension step of `(?:,\s*\w+)*` in the select-like column pattern:
from position `p`, repeatedly consume a comma, optional whitespace and a
non-empty word run; returns the end position.  Fuel-bounded (each step
consumes at least one character). -/
def commaListExt (text : PyStr) : Nat → Nat → Nat
  | p, 0 => p
  | p, fuel + 1 =>
      if text.getD p 'a' == ',' then
        let s := spaceRunLen text (p + 1)
        let w := wordRunLen text (p + 1 + s)
        if w != 0 then commaListExt text (p + 1 + s + w) fuel else p
      else p

/-- `group(2)` captures of the select-like column pattern
`r"\b(show|get|display)\s+(\w+(?:,\s*\w+)*)\b"` (the final `\b` always holds
at the end of the greedy comma list, which ends in a word character). -/
def selectPatternGroup2s (text : PyStr) : List PyStr :=
  (List.range (text.length + 1)).filterMap fun i =>
    if boundaryBefore text i then
      ([pys "show", pys "get", pys "display"].find? fun w =>
          matchesAt text w i && spaceRunLen text (i + w.length) != 0).bind fun w =>
        let j := i + w.length
        let st := j + spaceRunLen text j
        let r := wordRunLen text st
        if r != 0 then some (slice text st (commaListExt text (st + r) text.length - st))
        else none
    else none

/-- The gazetteer `common_table_words` of `_extract_tables`. -/
def common_table_words : List PyStr :=
  [pys "users", pys "products", pys "orders", pys "customers", pys "items",
   pys "data"]

/-- `NaturalLanguageParser._extract_tables` (lines 111-129).  Both indicator
patterns capture the indicator keyword as group 1, which the filter below
always removes; the gazetteer words present as substrings are then appended.
`list(set(tables))` has hash-dependent order in CPython; it is embedded as a
first-occurrence deduplication, and every property proved about the result
uses membership only. -/
def extract_tables (query : PyStr) : List PyStr :=
  let indicator1 := keywordThenWordGroup1s [pys "table", pys "from"] query
  let tables := (indicator1 ++ tableIndicator2Group1s query).filter fun t =>
    !t.isEmpty && !([pys "table", pys "from", pys "in", pys "on"].contains t)
  let tables := common_table_words.foldl
    (fun acc w => if pyContains query w && !acc.contains w then acc ++ [w] else acc)
    tables
  tables.dedup

/-- Python `str.split(sep)` for a single-character separator (helper for the
recursion of `pySplitOn`). -/
def pySplitOnAux (sep : Char) : PyStr → PyStr → List PyStr
  | [], acc => [acc.reverse]
  | c :: rest, acc =>
      if c == sep then acc.reverse :: pySplitOnAux sep rest []
      else pySplitOnAux sep rest (c :: acc)

/-- Python `str.split(sep)` for a single-character separator. -/
def pySplitOn (sep : Char) (s : PyStr) : List PyStr := pySplitOnAux sep s []

/-- `NaturalLanguageParser._extract_columns` (lines 131-152): group-1 captures
of the two column indicator patterns (the first pattern's captures are always
`column`/`field` and are filtered out), plus the comma-split, stripped
group-2 captures of the select-like pattern.  `list(set(columns))` is embedded
as a deduplication, as in `extract_tables`. -/
def extract_columns (query : PyStr) : List PyStr :=
  let fromIndicators :=
    (keywordThenWordGroup1s [pys "column", pys "field"] query
      ++ wordThenKeywordGroup1s [pys "column", pys "field"] query).filter fun c =>
      !c.isEmpty && !([pys "column", pys "field"].contains c)
  let columns := fromIndicators ++
    (selectPatternGroup2s query).flatMap fun lst => (pySplitOn ',' lst).map pyStrip
  columns.dedup

/-- One extracted filter triad (`{'column','operator','value'}`). -/
structure FilterCond where
  column : PyStr
  operator : PyStr
  value : PyStr
deriving DecidableEq, Repr

/-- The character class `[\w\s'"]` of the filter value groups. -/
def isValueChar (c : Char) : Bool :=
  isWordChar c || isSpaceChar c || c == '\x27' || c == '"'

/-- Length of the maximal `[\w\s'"]*` run starting at `i`. -/
def valueRunLen (text : PyStr) (i : Nat) : Nat :=
  ((text.drop i).takeWhile isValueChar).length

/-- Match of `\s*([\w\s'"]+)` at position `q`: the greedy whitespace run
followed by the greedy value run, with backtracking of `\s*` when the value
run after it is empty (whitespace is itself a value character, so one space is
handed back).  Returns the captured group and the match end. -/
def spacedValueAt (text : PyStr) (q : Nat) : Option (PyStr × Nat) :=
  let s := spaceRunLen text q
  let r := valueRunLen text (q + s)
  if r != 0 then some (slice text (q + s) r, q + s + r)
  else if s != 0 then some (slice text (q + s - 1) 1, q + s)
  else none

/-- Match of `\s+([\w\s'"]+)` at position `q` (used by filter patterns 2 and
3, where at least one whitespace is required before the value). -/
def spacedValue1At (text : PyStr) (q : Nat) : Option (PyStr × Nat) :=
  let s := spaceRunLen text q
  if s == 0 then none
  else
    let r := valueRunLen text (q + s)
    if r != 0 then some (slice text (q + s) r, q + s + r)
    else if s != 1 then some (slice text (q + s - 1) 1, q + s)
    else none

/-- Operator alternation of filter pattern 1, in the pattern's order. -/
def filterOps1 : List PyStr :=
  [pys "=", pys ">", pys "<", pys ">=", pys "<=", pys "!=", pys "like"]

/-- Filter pattern 1, `r"\bwhere\s+(\w+)\s*(=|>|<|>=|<=|!=|like)\s*([\w\s'\"]+)"`,
matched at position `i`.  The greedy `(\w+)` backtracks from the maximal run
(`like` may otherwise be swallowed by the column word); for each column
length, operators are tried in alternation order.  Returns the triad and the
match end. -/
def whereFilterAt (text : PyStr) (i : Nat) : Option (FilterCond × Nat) :=
  if boundaryBefore text i && matchesAt text (pys "where") i then
    let j := i + 5
    let m := spaceRunLen text j
    if m != 0 then
      let st := j + m
      let r := wordRunLen text st
      ((List.range r).map (r - ·)).findSome? fun len =>
        let p := st + len
        let s1 := spaceRunLen text p
        filterOps1.findSome? fun op =>
          if matchesAt text op (p + s1) then
            (spacedValueAt text (p + s1 + op.length)).map fun (v, e) =>
              ({ column := slice text st len, operator := op, value := pyStrip v }, e)
          else none
    else none
  else none

/-- Operator alternation of filter pattern 2, `(is|equals?|contains?)`, with
the greedy `?` expanded in preference order. -/
def filterOps2 : List PyStr :=
  [pys "is", pys "equals", pys "equal", pys "contains", pys "contain"]

/-- Operator alternation of filter pattern 3. -/
def filterOps3 : List PyStr :=
  [pys "greater than", pys "less than", pys "equal to"]

/-- Filter patterns 2 and 3, `r"\b(\w+)\s+(OPS)\s+([\w\s'\"]+)"`, matched at
position `i`: a maximal word run at a boundary (shorter runs cannot be
followed by `\s+`), at least one whitespace, an operator from `ops` in
alternation order followed by `\s+` and the value group. -/
def wordOpValueAt (ops : List PyStr) (text : PyStr) (i : Nat) :
    Option (FilterCond × Nat) :=
  if boundaryBefore text i then
    let r := wordRunLen text i
    if r != 0 then
      let j := i + r
      let m := spaceRunLen text j
      if m != 0 then
        ops.findSome? fun op =>
          if matchesAt text op (j + m) then
            (spacedValue1At text (j + m + op.length)).map fun (v, e) =>
              ({ column := slice text i r, operator := op, value := pyStrip v }, e)
          else none
      else none
    else none
  else none

/-- `re.finditer` driver: successive leftmost matches, resuming at each match
end (all our matches consume at least one character, and the scan position
strictly increases, so `text.length + 1` is enough fuel). -/
def finditer {α : Type} (matchAt : Nat → Option (α × Nat)) (text : PyStr) :
    Nat → Nat → List α
  | _, 0 => []
  | i, fuel + 1 =>
      if i > text.length then []
      else
        match matchAt i with
        | some (a, e) => a :: finditer matchAt text (max e (i + 1)) fuel
        | none => finditer matchAt text (i + 1) fuel

/-- All matches of a positional matcher, as `re.finditer` yields them. -/
def findAll {α : Type} (matchAt : Nat → Option (α × Nat)) (text : PyStr) :
    List α :=
  finditer matchAt text 0 (text.length + 1)

/-- `NaturalLanguageParser._extract_filters` (lines 154-175): the three
`where_patterns` are scanned with `finditer` in order; each match yields one
triad with the value stripped. -/
def extract_filters (query : PyStr) : List FilterCond :=
  findAll (whereFilterAt query) query
    ++ findAll (wordOpValueAt filterOps2 query) query
    ++ findAll (wordOpValueAt filterOps3 query) query

/-- One extracted aggregation (`{'function','column'}`). -/
structure AggSpec where
  function : PyStr
  column : PyStr
deriving DecidableEq, Repr

/-- The normalization of `_extract_aggregations`: `total`, `number of` and
`how many` become `count`; `average` becomes `avg`. -/
def aggNormalize (f : PyStr) : PyStr :=
  if [pys "total", pys "number of", pys "how many"].contains f then pys "count"
  else if f = pys "average" then pys "avg"
  else f

/-- Aggregation pattern 1, `r"\b(count|sum|average|avg|max|min)\s+(?:of\s+)?(\w+)"`,
matched at `i`.  The greedy optional `of\s+` is tried first and abandoned when
no word follows it. -/
def aggPattern1At (text : PyStr) (i : Nat) : Option (AggSpec × Nat) :=
  if boundaryBefore text i then
    [pys "count", pys "sum", pys "average", pys "avg", pys "max", pys "min"].findSome?
      fun f =>
        if matchesAt text f i then
          let j := i + f.length
          let m := spaceRunLen text j
          if m != 0 then
            let k := j + m
            let ofBranch :=
              if matchesAt text (pys "of") k then
                let s2 := spaceRunLen text (k + 2)
                let w := wordRunLen text (k + 2 + s2)
                if s2 != 0 && w != 0 then
                  some ({ function := aggNormalize f,
                          column := slice text (k + 2 + s2) w }, k + 2 + s2 + w)
                else none
              else none
            match ofBranch with
            | some res => some res
            | none =>
                let w := wordRunLen text k
                if w != 0 then
                  some ({ function := aggNormalize f, column := slice text k w }, k + w)
                else none
          else none
        else none
  else none

/-- Aggregation pattern 2, `r"\b(total|number of)\s+(\w+)"`, matched at `i`. -/
def aggPattern2At (text : PyStr) (i : Nat) : Option (AggSpec × Nat) :=
  if boundaryBefore text i then
    [pys "total", pys "number of"].findSome? fun f =>
      if matchesAt text f i then
        let j := i + f.length
        let m := spaceRunLen text j
        let w := wordRunLen text (j + m)
        if m != 0 && w != 0 then
          some ({ function := aggNormalize f, column := slice text (j + m) w },
            j + m + w)
        else none
      else none
  else none

/-- Aggregation pattern 3, `r"\bhow many\s+(\w+)"`, matched at `i`.  This
pattern has a single group, so the Python loop reads the captured *word* as
the function name (normalized) and fixes the column to `*`. -/
def aggPattern3At (text : PyStr) (i : Nat) : Option (AggSpec × Nat) :=
  if boundaryBefore text i && matchesAt text (pys "how many") i then
    let j := i + 8
    let m := spaceRunLen text j
    let w := wordRunLen text (j + m)
    if m != 0 && w != 0 then
      some ({ function := aggNormalize (slice text (j + m) w), column := pys "*" },
        j + m + w)
    else none
  else none

/-- `NaturalLanguageParser._extract_aggregations` (lines 177-201). -/
def extract_aggregations (query : PyStr) : List AggSpec :=
  findAll (aggPattern1At query) query
    ++ findAll (aggPattern2At query) query
    ++ findAll (aggPattern3At query) query

/-- The extracted sorting description (`{'column','direction'}`). -/
structure SortSpec where
  column : PyStr
  direction : PyStr
deriving DecidableEq, Repr

/-- One sorting pattern,
`r"\bKW\s+by\s+(\w+)\s*(asc|desc|ascending|descending)?"` for `KW` either
`order` or `sort`, matched at `i`.  The column is the maximal word run (the
rest of the pattern is optional); the direction alternation is tried in
pattern order after the greedy `\s*`, and `DESC` is chosen exactly when the
captured text is `desc` or `descending`. -/
def sortMatchAt (kw : PyStr) (text : PyStr) (i : Nat) : Option SortSpec :=
  if boundaryBefore text i && matchesAt text kw i then
    let j := i + kw.length
    let m1 := spaceRunLen text j
    if m1 != 0 && matchesAt text (pys "by") (j + m1) then
      let k := j + m1 + 2
      let m2 := spaceRunLen text k
      let r := wordRunLen text (k + m2)
      if m2 != 0 && r != 0 then
        let p := k + m2 + r
        let s := spaceRunLen text p
        let dir? := [pys "asc", pys "desc", pys "ascending", pys "descending"].find?
          fun d => matchesAt text d (p + s)
        some { column := slice text (k + m2) r
               direction :=
                 match dir? with
                 | some d =>
                     if [pys "desc", pys "descending"].contains d then pys "DESC"
                     else pys "ASC"
                 | none => pys "ASC" }
      else none
    else none
  else none

/-- `NaturalLanguageParser._extract_sorting` (lines 203-222): first match of
the `order by` pattern, else first match of the `sort by` pattern. -/
def extract_sorting (query : PyStr) : Option SortSpec :=
  match search1 (sortMatchAt (pys "order") query) query with
  | some s => some s
  | none => search1 (sortMatchAt (pys "sort") query) query

/-- Python `int()` of a non-empty digit string. -/
def pyNatOfDigits (ds : PyStr) : Nat :=
  ds.foldl (fun n c => n * 10 + (c.toNat - '0'.toNat)) 0

/-- Limit patterns 1-3, `r"\bKW\s+(\d+)"`, matched at `i`. -/
def limitKwAt (kw : PyStr) (text : PyStr) (i : Nat) : Option Nat :=
  if boundaryBefore text i && matchesAt text kw i then
    let j := i + kw.length
    let m := spaceRunLen text j
    if m != 0 then
      let d := digitRunLen text (j + m)
      if d != 0 then some (pyNatOfDigits (slice text (j + m) d)) else none
    else none
  else none

/-- Limit pattern 4, `r"\b(\d+)\s+rows?"`, matched at `i`: a digit run at a
boundary, whitespace, then the literal `row` (the trailing `s?` and absent
`\b` make the `s` irrelevant to matching). -/
def limitRowsAt (text : PyStr) (i : Nat) : Option Nat :=
  if boundaryBefore text i then
    let d := digitRunLen text i
    if d != 0 then
      let j := i + d
      let m := spaceRunLen text j
      if m != 0 && matchesAt text (pys "row") (j + m) then
        some (pyNatOfDigits (slice text i d))
      else none
    else none
  else none

/-- `NaturalLanguageParser._extract_limit` (lines 224-238): the four patterns
are searched in order; the first pattern that matches anywhere wins. -/
def extract_limit (query : PyStr) : Option Nat :=
  (search1 (limitKwAt (pys "limit") query) query).orElse fun _ =>
    (search1 (limitKwAt (pys "top") query) query).orElse fun _ =>
      (search1 (limitKwAt (pys "first") query) query).orElse fun _ =>
        search1 (limitRowsAt query) query

/-- `NaturalLanguageParser._calculate_confidence` (lines 240-268).  Python
float weights are embedded as the exact rationals they denote; the score is
capped at `1`. -/
def calculate_confidence (query_type : QueryType) (tables columns : List PyStr)
    (filters : List FilterCond) (aggregations : List AggSpec)
    (sorting : Option SortSpec) : ℚ :=
  let score : ℚ := 0
  let score := if query_type ≠ .unknown then score + 3/10 else score
  let score := if !tables.isEmpty then score + 2/10 else score
  let score := if !columns.isEmpty then score + 2/10 else score
  let score := if !filters.isEmpty then score + 3/20 else score
  let score := if !aggregations.isEmpty then score + 1/10 else score
  let score := if sorting.isSome then score + 1/20 else score
  min score 1

/-- `NaturalLanguageParser._generate_suggestions` (lines 270-286). -/
def generate_suggestions (query_type : QueryType) (tables columns : List PyStr)
    (confidence : ℚ) : List PyStr :=
  (if tables.isEmpty then
    [pys "Consider specifying which table you want to query"] else [])
  ++ (if query_type = .unknown then
    [pys "Try using clearer action words like \x27show\x27, \x27find\x27, \x27count\x27, etc."]
    else [])
  ++ (if confidence < 1/2 then
    [pys "Your query might be ambiguous. Try being more specific about tables and columns"]
    else [])
  ++ (if columns.isEmpty && query_type = .select then
    [pys "Specify which columns you want to see, or use \x27all columns\x27"]
    else [])

end NLParser

/-- `ParsedQuery` from `app/models/schemas.py`. -/
structure ParsedQuery where
  original_query : PyStr
  query_type : QueryType
  tables : List PyStr
  columns : List PyStr
  filters : List NLParser.FilterCond
  aggregations : List NLParser.AggSpec
  sorting : Option NLParser.SortSpec
  limit : Option Nat
  confidence : ℚ
  suggestions : List PyStr
deriving DecidableEq, Repr

/-- `NaturalLanguageParser.parse_query` (lines 60-83): lower-case and strip
the input, run every extractor, then compute the confidence and the
suggestions from the extracted fields. -/
def parse_query (query : PyStr) : ParsedQuery :=
  let query_lower := pyStrip (pyLower query)
  let query_type := NLParser.determine_query_type query_lower
  let tables := NLParser.extract_tables query_lower
  let columns := NLParser.extract_columns query_lower
  let filters := NLParser.extract_filters query_lower
  let aggregations := NLParser.extract_aggregations query_lower
  let sorting := NLParser.extract_sorting query_lower
  let limit := NLParser.extract_limit query_lower
  let confidence :=
    NLParser.calculate_confidence query_type tables columns filters aggregations sorting
  { original_query := query
    query_type := query_type
    tables := tables
    columns := columns
    filters := filters
    aggregations := aggregations
    sorting := sorting
    limit := limit
    confidence := confidence
    suggestions := NLParser.generate_suggestions query_type tables columns confidence }

/-! ## Query Synthesizer (`app/services/ai_query_processor.py`) -/

/-- `AIQueryProcessor._format_schema_for_ai` (lines 430-446). -/
def format_schema_for_ai (schema : DBSchema) : PyStr :=
  List.intercalate (pys "\n") <|
    schema.tables.flatMap fun (table_name, ti) =>
      [pys "Table: " ++ table_name]
        ++ ti.columns.map (fun col =>
            pys "  - " ++ col.name ++ pys " (" ++ col.type ++ pys ")"
              ++ (if col.primary_key then pys " [PRIMARY KEY]" else [])
              ++ (if col.not_null then pys " [NOT NULL]" else []))
        ++ [pys "  Rows: " ++ pys (toString ti.row_count), pys ""]

/-- Prefix of the `natural_language_to_sql` system prompt, up to the embedded
schema rendering. -/
def nlsqlSystemPrefix : PyStr :=
  pys "\nYou are an expert SQL query generator. Convert natural language requests to SQLite queries.\n\nDatabase Schema:\n"

/-- Suffix of the `natural_language_to_sql` system prompt. -/
def nlsqlSystemSuffix : PyStr :=
  pys "\n\nRules:\n1. Generate only valid SQLite syntax\n2. Use proper table and column names from the schema\n3. Include appropriate WHERE clauses for filtering\n4. Use LIMIT for large result sets\n5. Return only the SQL query, no explanations\n6. If the request is unclear, generate the most reasonable interpretation\n\nRespond with only the SQL query.\n"

/-- The markdown-fence cleanup of `natural_language_to_sql` (lines 187-195):
drop an opening ``` line and a closing ``` line, then strip. -/
def cleanupMarkdown (sql_query : PyStr) : PyStr :=
  if pyStartsWith sql_query (pys "```") then
    let lines := NLParser.pySplitOn '\n' sql_query
    let lines := if pyStartsWith (lines.headD []) (pys "```") then lines.tail else lines
    let lines :=
      if !lines.isEmpty && pyStrip (lines.getLastD []) = pys "```" then lines.dropLast
      else lines
    pyStrip (List.intercalate (pys "\n") lines)
  else sql_query

/-- `AIQueryProcessor.natural_language_to_sql` (lines 155-209): build the
two-message prompt, call the gateway, strip and unfence the reply content.
`Except.error` is the `except` branch, carrying `str(e)` as the returned
`error` field; it is reached when the gateway raises (its `UnboundLocalError`
on a failed POST) or when the reply lacks `choices[0]`. -/
def natural_language_to_sql (env : Env) (prompt : PyStr) (schema : DBSchema)
    (modelArg : Option PyStr) : Except PyStr PyStr :=
  let system_message := nlsqlSystemPrefix ++ format_schema_for_ai schema ++ nlsqlSystemSuffix
  let messages : List ChatMessage :=
    [{ role := pys "system", content := system_message },
     { role := pys "user", content := prompt }]
  match make_api_request env messages modelArg with
  | .error e => .error e
  | .ok response =>
      match response.choices with
      | [] => .error (pys "list index out of range")
      | c :: _ => .ok (cleanupMarkdown (pyStrip c.message.content))

/-- Outcome dictionary of `AIQueryProcessor.validate_query_safety`:
`{'success': True, 'analysis': ...}` or `{'success': False, 'error': ...}`. -/
inductive AIValidation where
  | ok (analysis : AIAnalysis)
  | failed (error : PyStr)
deriving DecidableEq, Repr

/-- The system prompt of `AIQueryProcessor.validate_query_safety`. -/
def securitySystemMessage : PyStr :=
  pys "\nYou are a SQL security expert. Analyze queries for potential security risks.\n\nCheck for:\n1. SQL injection patterns\n2. Dangerous operations (DROP, DELETE without WHERE, etc.)\n3. Performance risks (missing LIMIT on large tables)\n4. Data exposure risks\n\nRespond with JSON format:\n\x7b\n  \"safe\": true/false,\n  \"risk_level\": \"low\"/\"medium\"/\"high\",\n  \"warnings\": [\"list of specific warnings\"],\n  \"recommendations\": [\"list of recommendations\"]\n\x7d\n"

namespace AIQueryProcessor

/-- `AIQueryProcessor.validate_query_safety` (lines 377-428): ask the model
for a JSON verdict; when `json.loads` fails (the `parseAnalysis` oracle
returns `none`), fall back to the local heuristic — unsafe only if `DROP` or
`DELETE` occurs in the upper-cased query, risk `medium`, with a parse-failure
warning.  `AIValidation.failed` is the method's own `except` branch, reached
when the gateway raises or the reply lacks `choices[0]`. -/
def validate_query_safety (env : Env) (sql_query : PyStr)
    (modelArg : Option PyStr) : AIValidation :=
  let messages : List ChatMessage :=
    [{ role := pys "system", content := securitySystemMessage },
     { role := pys "user", content := pys "Analyze this SQL query: " ++ sql_query }]
  match make_api_request env messages modelArg with
  | .error e => .failed e
  | .ok response =>
      match response.choices with
      | [] => .failed (pys "list index out of range")
      | c :: _ =>
          let result_text := pyStrip c.message.content
          match env.parseAnalysis result_text with
          | some result => .ok result
          | none =>
              .ok { safe := some (!(pyContains (pyUpper sql_query) (pys "DROP"))
                        && !(pyContains (pyUpper sql_query) (pys "DELETE")))
                    risk_level := some (pys "medium")
                    warnings := some [pys "Could not parse AI safety analysis"]
                    recommendations := some [pys "Manual review recommended"] }

/-- The system prompt of `AIQueryProcessor.explain_query_results`. -/
def explainSystemMessage : PyStr :=
  pys "\nYou are a data analyst. Explain SQL query results in plain English.\nProvide insights about the data patterns, key findings, and answer the original question.\nBe concise but informative.\n"

/-- `AIQueryProcessor.explain_query_results` (lines 289-332): summarize the
rows (`json.dumps` via the `dumpsRows` oracle), ask the gateway, return the
stripped content; `Except.error` is the method's `except` branch, reached
when the gateway raises or the reply lacks `choices[0]`. -/
def explain_query_results (env : Env) (results : List Row)
    (original_prompt sql_query : PyStr) (modelArg : Option PyStr) :
    Except PyStr PyStr :=
  let results_summary := pys "Found " ++ pys (toString results.length) ++ pys " results"
  let sample_data :=
    if !results.isEmpty then
      if results.length > 3 then env.dumpsRows (results.take 3) else env.dumpsRows results
    else pys "No results found"
  let user_message :=
    pys "\nOriginal Question: " ++ original_prompt
      ++ pys "\nSQL Query: " ++ sql_query
      ++ pys "\nResults Summary: " ++ results_summary
      ++ pys "\nSample Data: " ++ sample_data
      ++ pys "\n\nPlease explain what these results mean and answer the original question.\n"
  let messages : List ChatMessage :=
    [{ role := pys "system", content := explainSystemMessage },
     { role := pys "user", content := user_message }]
  match make_api_request env messages modelArg with
  | .error e => .error e
  | .ok response =>
      match response.choices with
      | [] => .error (pys "list index out of range")
      | c :: _ => .ok (pyStrip c.message.content)

end AIQueryProcessor

/-! ## Safety Combiner and Pipeline Orchestrator (`app/models/ai_service.py`) -/

/-- `QuerySafetyAnalysis` from `app/models/schemas.py`. -/
structure QuerySafetyAnalysis where
  safe : Bool
  risk_level : RiskLevel
  warnings : List PyStr
  recommendations : List PyStr
deriving DecidableEq, Repr

/-- `str(ValueError)` raised by `RiskLevel(value)` on a non-member value. -/
def riskLevelValueError (s : PyStr) : PyStr :=
  pys "\x27" ++ s ++ pys "\x27 is not a valid RiskLevel"

/-- `str(e)` of the pydantic `ValidationError` raised when a `warnings`
element is `None` in the `QuerySafetyAnalysis` constructor (message text
abbreviated; only its presence is relied on). -/
def pydanticWarningsError : PyStr :=
  pys "1 validation error for QuerySafetyAnalysis"

/-- The `try` body of `AIService.validate_query_safety`
(`app/models/ai_service.py`, lines 127-169), for an already-computed rule
verdict and model-layer outcome.  `Except.error` marks the points where the
Python body raises: `RiskLevel(...)` on a non-member risk level, and the
pydantic `QuerySafetyAnalysis` constructor when a `None` slips into
`warnings` (the rule layer stores `warning: None` when safe, and the fallback
branch wraps exactly that stored value, the `.get` default being unreachable
because the key is always present). -/
def combineSafety (basic : BasicValidation) (ai : AIValidation) :
    Except PyStr QuerySafetyAnalysis :=
  match ai with
  | .ok ai_analysis =>
      let combined_warnings : List (Option PyStr) :=
        (if !basic.safe then [basic.warning] else [])
          ++ (ai_analysis.warnings.getD []).map some
      let combined_recommendations := ai_analysis.recommendations.getD []
      let is_safe := basic.safe && ai_analysis.safe.getD true
      match riskLevelOfString (ai_analysis.risk_level.getD (pys "medium")) with
      | none => .error (riskLevelValueError (ai_analysis.risk_level.getD (pys "medium")))
      | some risk_level =>
          match combined_warnings.mapM id with
          | none => .error pydanticWarningsError
          | some warnings =>
              .ok { safe := is_safe, risk_level := risk_level, warnings := warnings,
                    recommendations := combined_recommendations }
  | .failed _ =>
      match basic.warning with
      | some w =>
          .ok { safe := basic.safe, risk_level := .medium, warnings := [w],
                recommendations := [pys "Manual review recommended"] }
      | none => .error pydanticWarningsError

namespace AIService

/-- The `try/except` of `AIService.validate_query_safety` around the
combination body: an exception raised while combining fails closed to an
unsafe, high-risk verdict carrying the validation error (lines 171-178). -/
def combineVerdict (basic : BasicValidation) (ai : AIValidation) :
    QuerySafetyAnalysis :=
  match combineSafety basic ai with
  | .ok v => v
  | .error e =>
      { safe := false
        risk_level := .high
        warnings := [pys "Validation error: " ++ e]
        recommendations := [pys "Manual review required"] }

/-- `AIService.validate_query_safety` (lines 125-178): rule layer, model
layer, combination with the fail-closed `except` branch. -/
def validate_query_safety (env : Env) (sql_query : PyStr)
    (modelArg : Option PyStr) : QuerySafetyAnalysis :=
  combineVerdict (SQLiteManager.validate_query_safety sql_query)
    (AIQueryProcessor.validate_query_safety env sql_query modelArg)

end AIService

/-- `AIQueryResponse` from `app/models/schemas.py`. -/
structure AIQueryResponse where
  success : Bool
  sql_query : Option PyStr := none
  original_prompt : PyStr
  parsed_info : Option ParsedQuery := none
  query_result : Option QueryResult := none
  explanation : Option PyStr := none
  error : Option PyStr := none
  processing_time : Option ℚ := none
deriving DecidableEq, Repr

namespace AIService

/-- The `try` body of `AIService.process_natural_language_query`
(`app/models/ai_service.py`, lines 27-109).  The `database_id` argument is
absorbed into the environment oracles (`dbInfoTruthy` for
`get_database_info`, `schemaResult` for `get_database_schema` with falsy
results as `none`, `execQuery` for `DatabaseModel.execute_query`), each of
which may raise; `Except.error` propagates such exceptions to the pipeline
boundary.  `ParsedQuery(**parsed_info)` is embedded as a plain construction
(its only pydantic constraint, `confidence` in `[0,1]`, always holds — see
the confidence theorem).  Wall-clock processing time is abstracted to `0`. -/
def pipelineBody (env : Env) (prompt : PyStr) (include_explanation : Bool)
    (modelArg : Option PyStr) : Except PyStr AIQueryResponse :=
  match env.dbInfoTruthy with
  | .error e => .error e
  | .ok found =>
      if !found then
        .ok { success := false, original_prompt := prompt,
              error := some (pys "Database not found") }
      else
        let parsed_query := parse_query prompt
        match env.schemaResult with
        | .error e => .error e
        | .ok none =>
            .ok { success := false, original_prompt := prompt,
                  error := some (pys "Could not retrieve database schema") }
        | .ok (some schema) =>
            match natural_language_to_sql env prompt schema modelArg with
            | .error e =>
                .ok { success := false, original_prompt := prompt,
                      parsed_info := some parsed_query, error := some e }
            | .ok sql_query =>
                let safety_check := validate_query_safety env sql_query modelArg
                if !safety_check.safe && safety_check.risk_level = .high then
                  .ok { success := false, original_prompt := prompt,
                        sql_query := some sql_query,
                        parsed_info := some parsed_query,
                        error := some (pys "Query rejected due to high security risk") }
                else
                  match env.execQuery sql_query with
                  | .error e => .error e
                  | .ok structured_result =>
                      let explanation :=
                        if include_explanation && structured_result.success
                            && !(structured_result.data.getD []).isEmpty then
                          match AIQueryProcessor.explain_query_results env
                              (structured_result.data.getD []) prompt sql_query
                              modelArg with
                          | .ok ex => some ex
                          | .error _ => none
                        else none
                      .ok { success := true, sql_query := some sql_query,
                            original_prompt := prompt,
                            parsed_info := some parsed_query,
                            query_result := some structured_result,
                            explanation := explanation,
                            processing_time := some 0 }

/-- `AIService.process_natural_language_query` (lines 22-123): the pipeline
body wrapped in the boundary `except`, which converts any raised exception
into `AIQueryResponse(success=False, error=str(e), processing_time=...)`. -/
def process_natural_language_query (env : Env) (prompt : PyStr)
    (include_explanation : Bool) (modelArg : Option PyStr) : AIQueryResponse :=
  match pipelineBody env prompt include_explanation modelArg with
  | .ok response => response
  | .error e =>
      { success := false, original_prompt := prompt, error := some e,
        processing_time := some 0 }

end AIService

/-! ## Specification-side definitions

Definitions written from the specification's wording, used to state the
claims (they are compared against the source-derived functions above, never
used inside them). -/

/-- The model layer's opinion on safety as the specification reads it:
`model.safe`, defaulting to `true` when the field is absent or the model
layer failed outright. -/
def modelSafeDefault : AIValidation → Bool
  | .ok a => a.safe.getD true
  | .failed _ => true

/-- Modelled from the spec: the content of the *most recent* (last)
user-role message, which the specification says the mock inspects. -/
def lastUserContent (messages : List ChatMessage) : PyStr :=
  match messages.reverse.find? (fun m => m.role == pys "user") with
  | some m => m.content
  | none => []

/-- The six signal categories of the confidence formula. -/
structure SignalFlags where
  typed : Bool
  hasTables : Bool
  hasColumns : Bool
  hasFilters : Bool
  hasAggregations : Bool
  hasSorting : Bool
deriving DecidableEq, Repr

/-- The signal categories matched by a parse result. -/
def signalFlags (r : ParsedQuery) : SignalFlags :=
  { typed := decide (r.query_type ≠ .unknown)
    hasTables := !r.tables.isEmpty
    hasColumns := !r.columns.isEmpty
    hasFilters := !r.filters.isEmpty
    hasAggregations := !r.aggregations.isEmpty
    hasSorting := r.sorting.isSome }

/-- Modelled from the spec: the confidence as the claim words it — the
weighted sum `0.30/0.20/0.20/0.15/0.10/0.05` over matched categories, capped
at `1.0`. -/
def specConfidence (f : SignalFlags) : ℚ :=
  min ((if f.typed then (3 : ℚ)/10 else 0) + (if f.hasTables then 2/10 else 0)
      + (if f.hasColumns then 2/10 else 0) + (if f.hasFilters then 3/20 else 0)
      + (if f.hasAggregations then 1/10 else 0) + (if f.hasSorting then 1/20 else 0))
    1

/-- Pointwise implication of matched signal categories: every category
matched by `f` is matched by `g`. -/
def flagsLe (f g : SignalFlags) : Prop :=
  (f.typed = true → g.typed = true)
    ∧ (f.hasTables = true → g.hasTables = true)
    ∧ (f.hasColumns = true → g.hasColumns = true)
    ∧ (f.hasFilters = true → g.hasFilters = true)
    ∧ (f.hasAggregations = true → g.hasAggregations = true)
    ∧ (f.hasSorting = true → g.hasSorting = true)

instance (f g : SignalFlags) : Decidable (flagsLe f g) := by
  unfold flagsLe; infer_instance

/-! ## Helper lemmas -/

theorem pyContains_iff {hay needle : PyStr} :
    pyContains hay needle = true ↔ needle <:+: hay := by
  unfold pyContains
  rw [List.any_eq_true]
  constructor
  · rintro ⟨i, _, hp⟩
    rw [List.isPrefixOf_iff_prefix] at hp
    exact List.infix_iff_prefix_suffix.mpr ⟨hay.drop i, hp, List.drop_suffix i hay⟩
  · intro h
    obtain ⟨t, hp, hs⟩ := List.infix_iff_prefix_suffix.mp h
    obtain ⟨s, rfl⟩ := hs
    refine ⟨s.length, ?_, ?_⟩
    · simp [List.mem_range]
      omega
    · rw [List.isPrefixOf_iff_prefix, List.drop_left]
      exact hp

theorem infix_dropWhile_of_head {p : Char → Bool} {n u : PyStr}
    (hn : n ≠ []) (hh : p (n.headD ' ') = false) (h : n <:+: u) :
    n <:+: u.dropWhile p := by
  obtain ⟨s, t, rfl⟩ := h
  induction s with
  | nil =>
      cases n with
      | nil => exact absurd rfl hn
      | cons c cs =>
          simp only [List.nil_append, List.headD_cons] at hh ⊢
          rw [List.cons_append, List.dropWhile_cons]
          simp only [hh, Bool.false_eq_true, if_false]
          exact ⟨[], t, rfl⟩
  | cons c s ih =>
      by_cases hc : p c = true
      · simpa [List.cons_append, List.dropWhile_cons, hc] using ih
      · rw [List.cons_append, List.cons_append, List.dropWhile_cons]
        simp only [hc, if_false]
        exact ⟨c :: s, t, by simp⟩

theorem infix_pyStrip {n u : PyStr} (hn : n ≠ [])
    (hh : isSpaceChar (n.headD ' ') = false)
    (hl : isSpaceChar (n.getLastD ' ') = false) (h : n <:+: u) :
    n <:+: pyStrip u := by
  unfold pyStrip
  have h1 : n <:+: u.dropWhile isSpaceChar := infix_dropWhile_of_head hn hh h
  have h2 : n.reverse <:+: (u.dropWhile isSpaceChar).reverse :=
    List.reverse_infix.mpr h1
  have h3 : n.reverse <:+:
      ((u.dropWhile isSpaceChar).reverse.dropWhile isSpaceChar) := by
    refine infix_dropWhile_of_head (by simpa using hn) ?_ h2
    rw [List.headD_eq_head?_getD, List.head?_reverse]
    rwa [List.getLastD_eq_getLast?] at hl
  simpa using List.reverse_infix.mpr h3

/-- On every non-raising path of the combination body, the combined flag is
the conjunction of the rule flag and the (defaulted) model flag. -/
theorem combineSafety_ok_safe {basic : BasicValidation} {ai : AIValidation}
    {v : QuerySafetyAnalysis} (h : combineSafety basic ai = .ok v) :
    v.safe = (basic.safe && modelSafeDefault ai) := by
  unfold combineSafety at h
  repeat' split at h
  all_goals simp_all [modelSafeDefault]
  all_goals repeat' split at h
  all_goals first
    | rfl
    | (subst h; rfl)
    | (injection h with h2; subst h2; rfl)
    | exact absurd h (by simp)

/-- An unsafe rule verdict forces the combined verdict unsafe, on the normal
paths and on the fail-closed exception path alike. -/
theorem combineVerdict_safe_of_rule_false {basic : BasicValidation}
    {ai : AIValidation} (h : basic.safe = false) :
    (AIService.combineVerdict basic ai).safe = false := by
  unfold AIService.combineVerdict
  cases hc : combineSafety basic ai with
  | error e => rfl
  | ok v => simp [combineSafety_ok_safe hc, h]

/-- The rule layer flags any query whose text contains `DROP` after
upper-casing and stripping. -/
theorem rule_unsafe_of_contains_drop {q : PyStr}
    (h : (pys "DROP") <:+: pyStrip (pyUpper q)) :
    (SQLiteManager.validate_query_safety q).safe = false := by
  have hp : pyContains (pyStrip (pyUpper q)) (pys "DROP") = true := pyContains_iff.mpr h
  simp only [SQLiteManager.validate_query_safety, SQLiteManager.dangerous_keywords,
    List.find?_cons, hp]

/-- C1: any SQL text whose upper-cased form contains `DROP TABLE` (hence any
casing of the input) is flagged unsafe by the combined verdict; more
generally an unsafe rule verdict forces the combined `is_safe` to `false`
whatever the model layer said, and on every non-raising combination path the
combined flag equals `rule.safe AND model.safe` with the model flag
defaulting to `true` when absent. -/
theorem c1_safety_combiner_rule_veto (q : PyStr) (ai : AIValidation) :
    (pyContains (pyUpper q) (pys "DROP TABLE") = true →
        (AIService.combineVerdict (SQLiteManager.validate_query_safety q) ai).safe
          = false)
  ∧ ((SQLiteManager.validate_query_safety q).safe = false →
        (AIService.combineVerdict (SQLiteManager.validate_query_safety q) ai).safe
          = false)
  ∧ (∀ v, combineSafety (SQLiteManager.validate_query_safety q) ai = .ok v →
        v.safe = ((SQLiteManager.validate_query_safety q).safe && modelSafeDefault ai)) := by
  refine ⟨?_, fun h => combineVerdict_safe_of_rule_false h,
    fun v h => combineSafety_ok_safe h⟩
  intro h
  apply combineVerdict_safe_of_rule_false
  apply rule_unsafe_of_contains_drop
  have h1 : (pys "DROP TABLE") <:+: pyUpper q := pyContains_iff.mp h
  have h2 : (pys "DROP") <:+: pyUpper q :=
    List.IsInfix.trans (by decide : (pys "DROP") <:+: pys "DROP TABLE") h1
  exact infix_pyStrip (by decide) (by decide) (by decide) h2

/-- Concrete input of the C1 witness: a mixed-case `DROP TABLE` statement. -/
def c1q : PyStr := pys "please Drop Table users"

/-- Model-layer verdict of the C1 witness: the model calls the query safe. -/
def c1ai : AIValidation :=
  .ok { safe := some true, risk_level := some (pys "low"), warnings := some [],
        recommendations := some [] }

/-- Combined verdict of the C1 witness, as the combination body produces it. -/
def c1v : QuerySafetyAnalysis :=
  { safe := false
    risk_level := .low
    warnings := [pys "Query contains potentially dangerous operation: DROP"]
    recommendations := [] }

/-- C1 witness: the theorem applied to the concrete mixed-case input, with
every hypothesis discharged by evaluation. -/
theorem c1_safety_combiner_rule_veto_witness :
    pyContains (pyUpper c1q) (pys "DROP TABLE") = true
  ∧ (AIService.combineVerdict (SQLiteManager.validate_query_safety c1q) c1ai).safe
      = false
  ∧ c1v.safe = ((SQLiteManager.validate_query_safety c1q).safe && modelSafeDefault c1ai) :=
  ⟨by decide, (c1_safety_combiner_rule_veto c1q c1ai).1 (by decide),
    (c1_safety_combiner_rule_veto c1q c1ai).2.2 c1v (by rfl)⟩

/-- Boundary-catch reduction: a normally-returning body is returned as-is. -/
theorem process_eq_of_body_ok {env : Env} {prompt : PyStr} {incl : Bool}
    {m : Option PyStr} {r : AIQueryResponse}
    (h : AIService.pipelineBody env prompt incl m = .ok r) :
    AIService.process_natural_language_query env prompt incl m = r := by
  unfold AIService.process_natural_language_query
  rw [h]

/-- Boundary-catch reduction: a raised exception becomes the catch-all
failure response. -/
theorem process_eq_of_body_error {env : Env} {prompt : PyStr} {incl : Bool}
    {m : Option PyStr} {e : PyStr}
    (h : AIService.pipelineBody env prompt incl m = .error e) :
    AIService.process_natural_language_query env prompt incl m =
      { success := false, original_prompt := prompt, error := some e,
        processing_time := some 0 } := by
  unfold AIService.process_natural_language_query
  rw [h]

/-- A run that reaches the EXECUTE stage returns a successful response
embedding the engine's result verbatim, whatever that result's own `success`
flag is. -/
theorem pipelineBody_execute {env : Env} {prompt : PyStr} {incl : Bool}
    {m : Option PyStr} {schema : DBSchema} {sql : PyStr} {qr : QueryResult}
    (h1 : env.dbInfoTruthy = .ok true)
    (h2 : env.schemaResult = .ok (some schema))
    (h3 : natural_language_to_sql env prompt schema m = .ok sql)
    (h4 : ¬((AIService.validate_query_safety env sql m).safe = false
        ∧ (AIService.validate_query_safety env sql m).risk_level = .high))
    (h5 : env.execQuery sql = .ok qr) :
    ∃ r, AIService.pipelineBody env prompt incl m = .ok r
      ∧ r.success = true ∧ r.sql_query = some sql
      ∧ r.parsed_info = some (parse_query prompt)
      ∧ r.query_result = some qr := by
  have hcond : (!(AIService.validate_query_safety env sql m).safe
      && decide ((AIService.validate_query_safety env sql m).risk_level = .high))
        = false := by
    rcases hs : (AIService.validate_query_safety env sql m).safe
    · have hr : (AIService.validate_query_safety env sql m).risk_level ≠ .high :=
        fun hr => h4 ⟨hs, hr⟩
      simp [hr]
    · simp [hs]
  unfold AIService.pipelineBody
  rw [h1]
  simp only [Bool.not_true, Bool.false_eq_true, if_false, h2, h3, hcond, h5]
  exact ⟨_, rfl, rfl, rfl, rfl, rfl⟩

/-- C2: a pipeline run that reaches the EXECUTE stage (database found, schema
retrieved, synthesis succeeded, query not rejected as high-risk unsafe)
returns `success=true` with the engine's execution result embedded as
returned — also when that result has `query_result.success=false`. -/
theorem c2_execution_failure_not_fatal (env : Env) (prompt : PyStr)
    (incl : Bool) (m : Option PyStr) (schema : DBSchema) (sql : PyStr)
    (qr : QueryResult)
    (h1 : env.dbInfoTruthy = .ok true)
    (h2 : env.schemaResult = .ok (some schema))
    (h3 : natural_language_to_sql env prompt schema m = .ok sql)
    (h4 : ¬((AIService.validate_query_safety env sql m).safe = false
        ∧ (AIService.validate_query_safety env sql m).risk_level = .high))
    (h5 : env.execQuery sql = .ok qr) :
    (AIService.process_natural_language_query env prompt incl m).success = true
  ∧ (AIService.process_natural_language_query env prompt incl m).query_result
      = some qr := by
  obtain ⟨r, hr, hsucc, _, _, hqr⟩ := pipelineBody_execute h1 h2 h3 h4 h5
  rw [process_eq_of_body_ok hr]
  exact ⟨hsucc, hqr⟩

/-- Engine result of the C2 witness: the engine rejects the generated text. -/
def c2qr : QueryResult :=
  { success := false, error := some (pys "near \"I\": syntax error") }

/-- Environment of the C2 witness: no credential configured, the engine
rejecting whatever it receives. -/
def c2env : Env :=
  { apiKey := none
    defaultModel := none
    remote := fun _ => .raised (pys "offline")
    parseAnalysis := fun _ => none
    dumpsRows := fun _ => pys "[]"
    dbInfoTruthy := .ok true
    schemaResult := .ok (some { tables := [] })
    execQuery := fun _ => .ok c2qr }

/-- C2 witness: the theorem applied to a concrete run whose embedded
execution result has `success=false` while the pipeline reports success. -/
theorem c2_execution_failure_not_fatal_witness :
    (AIService.process_natural_language_query c2env (pys "hello") false none).success
        = true
  ∧ (AIService.process_natural_language_query c2env (pys "hello") false none).query_result
        = some c2qr
  ∧ c2qr.success = false :=
  ⟨(c2_execution_failure_not_fatal c2env (pys "hello") false none
      { tables := [] } mockApologyContent c2qr rfl rfl (by rfl) (by decide) rfl).1,
   (c2_execution_failure_not_fatal c2env (pys "hello") false none
      { tables := [] } mockApologyContent c2qr rfl rfl (by rfl) (by decide) rfl).2,
   rfl⟩

/-- C10: when the safety-combination body raises, the verdict fails closed to
`safe=false`, `risk_level=high`, warnings carrying the validation error and
recommendations `["Manual review required"]`; consequently a pipeline run
whose combination step raises rejects the query with
"Query rejected due to high security risk" instead of executing it. -/
theorem c10_fail_closed_combiner (basic : BasicValidation) (ai : AIValidation)
    (e : PyStr) (h : combineSafety basic ai = .error e) :
    AIService.combineVerdict basic ai =
      { safe := false, risk_level := .high,
        warnings := [pys "Validation error: " ++ e],
        recommendations := [pys "Manual review required"] }
  ∧ ∀ (env : Env) (prompt : PyStr) (incl : Bool) (m : Option PyStr)
      (schema : DBSchema) (sql : PyStr),
      env.dbInfoTruthy = .ok true →
      env.schemaResult = .ok (some schema) →
      natural_language_to_sql env prompt schema m = .ok sql →
      combineSafety (SQLiteManager.validate_query_safety sql)
          (AIQueryProcessor.validate_query_safety env sql m) = .error e →
      AIService.process_natural_language_query env prompt incl m =
        { success := false, original_prompt := prompt, sql_query := some sql,
          parsed_info := some (parse_query prompt),
          error := some (pys "Query rejected due to high security risk") } := by
  constructor
  · unfold AIService.combineVerdict
    rw [h]
  · intro env prompt incl m schema sql h1 h2 h3 h4
    have hv : AIService.validate_query_safety env sql m =
        { safe := false, risk_level := .high,
          warnings := [pys "Validation error: " ++ e],
          recommendations := [pys "Manual review required"] } := by
      unfold AIService.validate_query_safety AIService.combineVerdict
      rw [h4]
    apply process_eq_of_body_ok
    unfold AIService.pipelineBody
    rw [h1]
    simp only [Bool.not_true, Bool.false_eq_true, if_false, h2, h3, hv]
    simp

/-- Rule-layer verdict of the C10 witness (a safe `SELECT`). -/
def c10basic : BasicValidation :=
  { safe := true, warning := none, requires_confirmation := false }

/-- Model-layer outcome of the C10 witness: a verdict whose `risk_level`
string is not a `RiskLevel` member, making `RiskLevel(...)` raise. -/
def c10ai : AIValidation :=
  .ok { safe := some true, risk_level := some (pys "banana"), warnings := some [],
        recommendations := some [] }

/-- Environment of the C10 witness: a live model path returning `SELECT 1`,
whose safety reply parses to the invalid-risk-level analysis. -/
def c10env : Env :=
  { apiKey := some (pys "k")
    defaultModel := some (pys "m")
    remote := fun _ => .response 200 (.ok (singleContentReply (pys "SELECT 1")))
    parseAnalysis := fun _ =>
      some { safe := some true, risk_level := some (pys "banana"),
             warnings := some [], recommendations := some [] }
    dumpsRows := fun _ => pys "[]"
    dbInfoTruthy := .ok true
    schemaResult := .ok (some { tables := [] })
    execQuery := fun _ => .ok { success := true } }

/-- C10 witness: the theorem applied at a concrete raising combination (an
invalid risk-level string) and a concrete pipeline run built on it. -/
theorem c10_fail_closed_combiner_witness :
    AIService.combineVerdict c10basic c10ai =
      { safe := false, risk_level := .high,
        warnings := [pys "Validation error: "
          ++ riskLevelValueError (pys "banana")],
        recommendations := [pys "Manual review required"] }
  ∧ AIService.process_natural_language_query c10env (pys "list things") false none =
      { success := false, original_prompt := pys "list things",
        sql_query := some (pys "SELECT 1"),
        parsed_info := some (parse_query (pys "list things")),
        error := some (pys "Query rejected due to high security risk") } :=
  ⟨(c10_fail_closed_combiner c10basic c10ai
      (riskLevelValueError (pys "banana")) (by rfl)).1,
   (c10_fail_closed_combiner c10basic c10ai
      (riskLevelValueError (pys "banana")) (by rfl)).2 c10env (pys "list things")
      false none { tables := [] } (pys "SELECT 1") rfl rfl (by rfl) (by rfl)⟩

/-- Every normally-returned failure response of the pipeline body carries an
error string. -/
theorem pipelineBody_ok_error_set {env : Env} {prompt : PyStr} {incl : Bool}
    {m : Option PyStr} {r : AIQueryResponse}
    (h : AIService.pipelineBody env prompt incl m = .ok r)
    (hs : r.success = false) : ∃ e, r.error = some e := by
  unfold AIService.pipelineBody at h
  try dsimp only at h
  repeat' split at h
  all_goals first
    | (injection h with h2; subst h2; simp_all)
    | exact absurd h (by simp)

/-- C8: the pipeline's run always returns a well-formed response without
raising (the embedding is total); any exception raised during orchestration
is caught at the boundary and converted into
`success=false, error=str(exception)`; and every returned response with
`success=false` has its error field set. -/
theorem c8_boundary_catch_all (env : Env) (prompt : PyStr) (incl : Bool)
    (m : Option PyStr) :
    (∀ e, AIService.pipelineBody env prompt incl m = .error e →
        AIService.process_natural_language_query env prompt incl m =
          { success := false, original_prompt := prompt, error := some e,
            processing_time := some 0 })
  ∧ ((AIService.process_natural_language_query env prompt incl m).success = false →
        ∃ e, (AIService.process_natural_language_query env prompt incl m).error
          = some e) := by
  constructor
  · intro e he
    exact process_eq_of_body_error he
  · intro hs
    rcases hb : AIService.pipelineBody env prompt incl m with e | r
    · rw [process_eq_of_body_error hb]
      exact ⟨e, rfl⟩
    · rw [process_eq_of_body_ok hb] at hs ⊢
      exact pipelineBody_ok_error_set hb hs

/-- Environment of the C8 witness: `get_database_info` raises. -/
def c8env : Env :=
  { apiKey := none
    defaultModel := none
    remote := fun _ => .raised (pys "offline")
    parseAnalysis := fun _ => none
    dumpsRows := fun _ => pys "[]"
    dbInfoTruthy := .error (pys "boom")
    schemaResult := .ok none
    execQuery := fun _ => .ok { success := true } }

/-- C8 witness: the theorem applied to a concrete run whose first stage
raises; the exception is converted at the boundary and the failure response
carries its text. -/
theorem c8_boundary_catch_all_witness :
    AIService.process_natural_language_query c8env (pys "hi") false none =
      { success := false, original_prompt := pys "hi", error := some (pys "boom"),
        processing_time := some 0 }
  ∧ ∃ e, (AIService.process_natural_language_query c8env (pys "hi") false none).error
      = some e :=
  ⟨(c8_boundary_catch_all c8env (pys "hi") false none).1 (pys "boom") (by rfl),
   (c8_boundary_catch_all c8env (pys "hi") false none).2 (by rfl)⟩

/-- Environment of the C9 counterexample: the database is found but the
schema fetch returns a falsy result. -/
def c9env : Env :=
  { apiKey := none
    defaultModel := none
    remote := fun _ => .raised (pys "offline")
    parseAnalysis := fun _ => none
    dumpsRows := fun _ => pys "[]"
    dbInfoTruthy := .ok true
    schemaResult := .ok none
    execQuery := fun _ => .ok { success := true } }

/-- C9 counterexample: a run that proceeds past PARSE and fails at
SCHEMA_FETCH returns a failure response whose `parsed_info` is `None` — the
ParsedQuery is *not* carried on this failure path, contrary to the claim. -/
theorem c9_counterexample :
    (AIService.process_natural_language_query c9env (pys "show all users") false none).success
        = false
  ∧ (AIService.process_natural_language_query c9env (pys "show all users") false none).error
        = some (pys "Could not retrieve database schema")
  ∧ (AIService.process_natural_language_query c9env (pys "show all users") false none).parsed_info
        = none :=
  ⟨rfl, rfl, rfl⟩

/-- C9 (amended): of the three later failure stages, SQL-synthesis failure
and high-risk safety rejection carry the ParsedQuery in the failure response,
but schema-fetch failure does not (its response leaves `parsed_info` unset). -/
theorem c9_parsed_info_on_failure (env : Env) (prompt : PyStr) (incl : Bool)
    (m : Option PyStr) (schema : DBSchema) (sql e : PyStr)
    (h1 : env.dbInfoTruthy = .ok true) :
    (env.schemaResult = .ok (some schema) →
        natural_language_to_sql env prompt schema m = .error e →
        AIService.process_natural_language_query env prompt incl m =
          { success := false, original_prompt := prompt,
            parsed_info := some (parse_query prompt), error := some e })
  ∧ (env.schemaResult = .ok (some schema) →
        natural_language_to_sql env prompt schema m = .ok sql →
        (AIService.validate_query_safety env sql m).safe = false →
        (AIService.validate_query_safety env sql m).risk_level = .high →
        AIService.process_natural_language_query env prompt incl m =
          { success := false, original_prompt := prompt, sql_query := some sql,
            parsed_info := some (parse_query prompt),
            error := some (pys "Query rejected due to high security risk") })
  ∧ (env.schemaResult = .ok none →
        AIService.process_natural_language_query env prompt incl m =
          { success := false, original_prompt := prompt,
            error := some (pys "Could not retrieve database schema") }) := by
  refine ⟨?_, ?_, ?_⟩
  · intro h2 h3
    apply process_eq_of_body_ok
    unfold AIService.pipelineBody
    rw [h1]
    simp only [Bool.not_true, Bool.false_eq_true, if_false, h2, h3]
  · intro h2 h3 hsafe hrisk
    apply process_eq_of_body_ok
    unfold AIService.pipelineBody
    rw [h1]
    simp only [Bool.not_true, Bool.false_eq_true, if_false, h2, h3, hsafe, hrisk]
    simp
  · intro h2
    apply process_eq_of_body_ok
    unfold AIService.pipelineBody
    rw [h1]
    simp only [Bool.not_true, Bool.false_eq_true, if_false, h2]

/-- Environment of the C9 witness: a live reply with an empty `choices` list,
making SQL synthesis fail with an index error. -/
def c9wenv : Env :=
  { apiKey := some (pys "k")
    defaultModel := some (pys "m")
    remote := fun _ => .response 200 (.ok { choices := [] })
    parseAnalysis := fun _ => none
    dumpsRows := fun _ => pys "[]"
    dbInfoTruthy := .ok true
    schemaResult := .ok (some { tables := [] })
    execQuery := fun _ => .ok { success := true } }

/-- C9 witness: the amended theorem applied to a concrete synthesis-failure
run (first conjunct) and to a concrete schema-fetch failure (third
conjunct). -/
theorem c9_parsed_info_on_failure_witness :
    AIService.process_natural_language_query c9wenv (pys "show all users") false none =
      { success := false, original_prompt := pys "show all users",
        parsed_info := some (parse_query (pys "show all users")),
        error := some (pys "list index out of range") }
  ∧ AIService.process_natural_language_query c9env (pys "show all users") false none =
      { success := false, original_prompt := pys "show all users",
        error := some (pys "Could not retrieve database schema") } :=
  ⟨(c9_parsed_info_on_failure c9wenv (pys "show all users") false none
      { tables := [] } [] (pys "list index out of range") rfl).1 rfl (by rfl),
   (c9_parsed_info_on_failure c9env (pys "show all users") false none
      { tables := [] } [] [] rfl).2.2 rfl⟩

/-- Every mock reply has exactly one choice, with non-empty content. -/
theorem mock_reply_nonempty (messages : List ChatMessage) :
    ∃ c rest, (get_mock_response messages).choices = c :: rest
      ∧ c.message.content ≠ [] := by
  unfold get_mock_response singleContentReply
  dsimp only
  repeat' split
  all_goals exact ⟨_, _, rfl, by decide⟩

/-- With no API key configured, the gateway answers with the mock without
ever invoking the remote call. -/
theorem make_api_request_no_key {env : Env} {messages : List ChatMessage}
    {modelArg : Option PyStr} (hk : env.apiKey = none) :
    make_api_request env messages modelArg = .ok (get_mock_response messages) := by
  unfold make_api_request
  rw [hk]
  rfl

/-- Environment of the C3 failing input: credential and model configured, the
POST raising a network error. -/
def c3env : Env :=
  { apiKey := some (pys "k")
    defaultModel := some (pys "m")
    remote := fun _ => .raised (pys "Connection refused")
    parseAnalysis := fun _ => none
    dumpsRows := fun _ => pys "[]"
    dbInfoTruthy := .ok true
    schemaResult := .ok (some { tables := [] })
    execQuery := fun _ => .ok { success := true } }

/-- C3: never-raising is the code's documented intent (the handler's comments
read "Return a mock response instead of raising an exception"), and the
missing-credential, non-200 and unreadable-body paths do return the non-empty
mock; but when the POST itself raises — the claim's timeout/network-error
case — the `except` handler dereferences the unbound local `response` and the
gateway raises `UnboundLocalError` to its caller instead of returning the
mock.  Evaluated at the failing input (first conjunct); the remaining
conjuncts evaluate the paths on which the claimed behavior does hold. -/
theorem c3_gateway_raises_on_network_error :
    make_api_request c3env [{ role := pys "user", content := pys "hi" }] none
      = .error unboundLocalResponseError
  ∧ (∀ messages, ∃ c rest,
      (get_mock_response messages).choices = c :: rest ∧ c.message.content ≠ [])
  ∧ make_api_request c2env [{ role := pys "user", content := pys "hi" }] none
      = .ok (get_mock_response [{ role := pys "user", content := pys "hi" }]) :=
  ⟨rfl, mock_reply_nonempty, make_api_request_no_key rfl⟩

/-- C7 counterexample: two message lists whose *most recent* user messages
agree but whose mock replies differ, because the mock inspects the *first*
user-role message, not the last. -/
theorem c7_counterexample :
    lastUserContent
        [{ role := pys "user", content := pys "sql books" },
         { role := pys "user", content := pys "hello" }]
      = lastUserContent
        [{ role := pys "user", content := pys "hello" },
         { role := pys "user", content := pys "hello" }]
  ∧ get_mock_response
        [{ role := pys "user", content := pys "sql books" },
         { role := pys "user", content := pys "hello" }]
      ≠ get_mock_response
        [{ role := pys "user", content := pys "hello" },
         { role := pys "user", content := pys "hello" }] :=
  ⟨rfl, by decide⟩

/-- C7 (amended): the mock reply is determined solely by the content of the
*earliest* message whose role is `user` (the extraction loop breaks at the
first user-role message): two message lists whose first user messages agree
receive the same mock reply. -/
theorem c7_mock_determined_by_first_user (m1 m2 : List ChatMessage)
    (h : firstUserContent m1 = firstUserContent m2) :
    get_mock_response m1 = get_mock_response m2 := by
  unfold get_mock_response
  rw [h]

/-- C7 witness: the amended theorem applied to two concrete lists with equal
first user messages. -/
theorem c7_mock_determined_by_first_user_witness :
    get_mock_response
        [{ role := pys "system", content := pys "a" },
         { role := pys "user", content := pys "x" }]
      = get_mock_response [{ role := pys "user", content := pys "x" }] :=
  c7_mock_determined_by_first_user _ _ rfl

/-- The mock reply to the SQL-synthesis prompt
`"show all records in books"`: the user message mentions neither `sql` nor
`query` (nor the schema-generation phrases), so the mock falls through to the
default apology — independently of the system message. -/
theorem get_mock_nl2sql_books (s : PyStr) :
    get_mock_response
        [{ role := pys "system", content := s },
         { role := pys "user", content := pys "show all records in books" }]
      = singleContentReply mockApologyContent := rfl

/-- Engine result of the C4 counterexample. -/
def c4qr : QueryResult :=
  { success := false, error := some (pys "no such table: books") }

/-- Environment of the C4 counterexample and witness: no credential, and an
engine that reports a missing table. -/
def c4env : Env :=
  { apiKey := none
    defaultModel := none
    remote := fun _ => .raised (pys "offline")
    parseAnalysis := fun _ => none
    dumpsRows := fun _ => pys "[]"
    dbInfoTruthy := .ok true
    schemaResult := .ok (some { tables := [] })
    execQuery := fun _ => .ok c4qr }

/-- C4 counterexample: on the mocked model path, the pipeline run on
`"show all records in books"` synthesizes the apology text, not
`SELECT * FROM books;` — the prompt contains neither `sql` nor `query`, so
the mock's table-specific branches are never reached. -/
theorem c4_counterexample :
    (AIService.process_natural_language_query c4env
        (pys "show all records in books") false none).sql_query
      = some mockApologyContent
  ∧ mockApologyContent ≠ pys "SELECT * FROM books;" :=
  ⟨by rfl, by decide⟩

/-- C4 (amended): with no credential configured, the pipeline on
`"show all records in books"` synthesizes the mock's default apology text
(the user message mentions neither `sql` nor `query`); the pipeline response
still has `success=true` with the engine's execution result embedded
verbatim — in particular `query_result.success=false` when the engine rejects
the text. -/
theorem c4_mocked_pipeline_books (env : Env) (schema : DBSchema)
    (qr : QueryResult)
    (hk : env.apiKey = none)
    (h1 : env.dbInfoTruthy = .ok true)
    (h2 : env.schemaResult = .ok (some schema))
    (hp : env.parseAnalysis (pys "SELECT * FROM table_name LIMIT 10;") = none)
    (hx : env.execQuery mockApologyContent = .ok qr) :
    (AIService.process_natural_language_query env
        (pys "show all records in books") false none).success = true
  ∧ (AIService.process_natural_language_query env
        (pys "show all records in books") false none).sql_query
      = some mockApologyContent
  ∧ (AIService.process_natural_language_query env
        (pys "show all records in books") false none).query_result = some qr := by
  have hsql : natural_language_to_sql env (pys "show all records in books") schema
      none = .ok mockApologyContent := by
    unfold natural_language_to_sql
    dsimp only
    rw [make_api_request_no_key hk, get_mock_nl2sql_books]
    rfl
  have hmock2 : get_mock_response
      [{ role := pys "system", content := securitySystemMessage },
       { role := pys "user",
         content := pys "Analyze this SQL query: " ++ mockApologyContent }]
      = singleContentReply (pys "SELECT * FROM table_name LIMIT 10;") := rfl
  have hverdict : AIService.validate_query_safety env mockApologyContent none =
      { safe := true, risk_level := .medium,
        warnings := [pys "Could not parse AI safety analysis"],
        recommendations := [pys "Manual review recommended"] } := by
    unfold AIService.validate_query_safety AIQueryProcessor.validate_query_safety
    dsimp only
    rw [make_api_request_no_key hk, hmock2]
    have hstrip : pyStrip (pys "SELECT * FROM table_name LIMIT 10;")
        = pys "SELECT * FROM table_name LIMIT 10;" := rfl
    dsimp only [singleContentReply]
    rw [hstrip, hp]
    rfl
  obtain ⟨r, hr, hsucc, hsq, _, hqr⟩ :=
    @pipelineBody_execute env (pys "show all records in books") false none schema
      mockApologyContent qr h1 h2 hsql (by rw [hverdict]; simp) hx
  rw [process_eq_of_body_ok hr]
  exact ⟨hsucc, hsq, hqr⟩

/-- C4 witness: the amended theorem applied to the concrete no-credential
environment whose engine reports `no such table: books`. -/
theorem c4_mocked_pipeline_books_witness :
    (AIService.process_natural_language_query c4env
        (pys "show all records in books") false none).success = true
  ∧ (AIService.process_natural_language_query c4env
        (pys "show all records in books") false none).sql_query
      = some mockApologyContent
  ∧ (AIService.process_natural_language_query c4env
        (pys "show all records in books") false none).query_result = some c4qr :=
  c4_mocked_pipeline_books c4env { tables := [] } c4qr rfl rfl rfl rfl rfl

/-- C5 counterexample: the Intent Parser on
`"delete record from items where id = 5"` does *not* classify the query as a
delete — the noun `record` matches the insert keyword family, which is
checked before the delete family. -/
theorem c5_counterexample :
    (parse_query (pys "delete record from items where id = 5")).query_type
        ≠ QueryType.delete
  ∧ (parse_query (pys "delete record from items where id = 5")).query_type
        = QueryType.insert :=
  ⟨by decide, by decide⟩

/-- C5 (amended): the Intent Parser on
`"delete record from items where id = 5"` returns `query_type=insert` (the
word `record` matches the insert family, checked before delete), a tables
collection containing `items`, and a filter with column `id`. -/
theorem c5_delete_prompt_parse :
    (parse_query (pys "delete record from items where id = 5")).query_type
        = QueryType.insert
  ∧ pys "items" ∈ (parse_query (pys "delete record from items where id = 5")).tables
  ∧ ∃ f ∈ (parse_query (pys "delete record from items where id = 5")).filters,
      f.column = pys "id" :=
  ⟨by decide, by decide,
    ⟨{ column := pys "id", operator := pys "=", value := pys "5" }, by decide, rfl⟩⟩

/-- A weight-indicator term is monotone under Boolean implication. -/
theorem indicator_le {b c : Bool} {w : ℚ} (hw : 0 ≤ w) (h : b = true → c = true) :
    (if b then w else 0) ≤ (if c then w else 0) := by
  cases b with
  | false => cases c <;> simp [hw]
  | true => rw [h rfl]

/-- A weight-indicator term is non-negative. -/
theorem indicator_nonneg (b : Bool) {w : ℚ} (hw : 0 ≤ w) :
    (0 : ℚ) ≤ (if b then w else 0) := by
  cases b <;> simp [hw]

/-- The sequential score accumulation of `_calculate_confidence` equals the
capped weighted sum over the matched signal categories. -/
theorem calculate_confidence_eq (qt : QueryType) (tb cols : List PyStr)
    (fl : List NLParser.FilterCond) (ag : List NLParser.AggSpec)
    (so : Option NLParser.SortSpec) :
    NLParser.calculate_confidence qt tb cols fl ag so =
      specConfidence
        { typed := decide (qt ≠ .unknown), hasTables := !tb.isEmpty,
          hasColumns := !cols.isEmpty, hasFilters := !fl.isEmpty,
          hasAggregations := !ag.isEmpty, hasSorting := so.isSome } := by
  unfold NLParser.calculate_confidence specConfidence
  dsimp only
  by_cases h1 : qt = .unknown <;>
    cases htb : tb.isEmpty <;> cases hc : cols.isEmpty <;> cases hf : fl.isEmpty <;>
    cases ha : ag.isEmpty <;> cases hs : so.isSome <;>
    simp [h1, htb, hc, hf, ha, hs]

theorem specConfidence_nonneg (f : SignalFlags) : 0 ≤ specConfidence f := by
  unfold specConfidence
  refine le_min ?_ (by norm_num)
  repeat' apply add_nonneg
  all_goals exact indicator_nonneg _ (by norm_num)

theorem specConfidence_le_one (f : SignalFlags) : specConfidence f ≤ 1 :=
  min_le_right _ _

theorem specConfidence_mono {f g : SignalFlags} (h : flagsLe f g) :
    specConfidence f ≤ specConfidence g := by
  obtain ⟨h1, h2, h3, h4, h5, h6⟩ := h
  unfold specConfidence
  refine min_le_min ?_ le_rfl
  exact add_le_add (add_le_add (add_le_add (add_le_add (add_le_add
    (indicator_le (by norm_num) h1) (indicator_le (by norm_num) h2))
    (indicator_le (by norm_num) h3)) (indicator_le (by norm_num) h4))
    (indicator_le (by norm_num) h5)) (indicator_le (by norm_num) h6)

/-- C6: for every input, the parse confidence equals the weighted sum capped
at `1.0` over the matched signal categories (`+0.30` type, `+0.20` tables,
`+0.20` columns, `+0.15` filters, `+0.10` aggregations, `+0.05` sorting),
hence lies in `[0,1]`; and it is monotonically non-decreasing in the set of
matched categories. -/
theorem c6_confidence_formula (s t : PyStr) :
    ((parse_query s).confidence = specConfidence (signalFlags (parse_query s))
      ∧ 0 ≤ (parse_query s).confidence ∧ (parse_query s).confidence ≤ 1)
  ∧ (flagsLe (signalFlags (parse_query s)) (signalFlags (parse_query t)) →
      (parse_query s).confidence ≤ (parse_query t).confidence) := by
  have key : ∀ u : PyStr,
      (parse_query u).confidence = specConfidence (signalFlags (parse_query u)) := by
    intro u
    unfold parse_query signalFlags
    dsimp only
    exact calculate_confidence_eq _ _ _ _ _ _
  refine ⟨⟨key s, ?_, ?_⟩, ?_⟩
  · rw [key s]
    exact specConfidence_nonneg _
  · rw [key s]
    exact specConfidence_le_one _
  · intro h
    rw [key s, key t]
    exact specConfidence_mono h

/-- C6 witness: the theorem applied to two concrete inputs, the first
matching no signal category and the second matching several. -/
theorem c6_confidence_formula_witness :
    flagsLe (signalFlags (parse_query (pys "xyzzy")))
      (signalFlags (parse_query (pys "show all users")))
  ∧ (parse_query (pys "xyzzy")).confidence
      ≤ (parse_query (pys "show all users")).confidence :=
  ⟨by decide, (c6_confidence_formula (pys "xyzzy") (pys "show all users")).2 (by decide)⟩

end SQLiteAgent
